import Mathlib

/-!
Verification of `fetch-nuts.py` (datova-kancelaria/datasets).

The script is a one-shot ETL job: fetch a JSON catalog, follow its dataset
URIs, flatten the returned geographic features into a 14-column table, and
partition the rows by region.  We shallowly embed the JSON data model and the
Python-level semantics the script relies on (`dict.get`, `or`-coalescing,
truthiness, `len`, subscripting, iteration), with faults modelled in
`Except PyErr`.  The network is abstracted as an oracle giving, for each URL
and each attempt index, either an error message (a raised
`RequestException`/`ValueError`) or the parsed JSON body.
-/

namespace FetchNuts

/-- JSON values as produced by `json` / `requests.Response.json()`.
A number is kept exactly as its decimal literal `m * 10 ^ e`
(the script never computes with numbers, it only copies them). -/
inductive Json where
  | null : Json
  | bool : Bool → Json
  | num : Int → Int → Json
  | str : String → Json
  | arr : List Json → Json
  | obj : List (String × Json) → Json

/-- Association lookup in an object's field list (dict keys are unique). -/
def Json.find? : List (String × Json) → String → Option Json
  | [], _ => none
  | (k, v) :: rest, key => if k = key then some v else Json.find? rest key

/-- Python `is None` test: JSON `null` is loaded as Python `None`. -/
def Json.isNull : Json → Bool
  | .null => true
  | _ => false

/-- Python `isinstance(x, dict)` test. -/
def Json.isObj : Json → Bool
  | .obj _ => true
  | _ => false

/-- The Python exceptions the script can raise while walking JSON values. -/
inductive PyErr where
  | attributeError : PyErr
  | typeError : PyErr
  | keyError : String → PyErr
  | indexError : PyErr

/-- Python truthiness (`if x:`): `None`, `False`, zero, the empty string, the
empty list and the empty dict are falsy, everything else is truthy. -/
def pyTruthy : Json → Bool
  | .null => false
  | .bool b => b
  | .num m _ => m != 0
  | .str s => s ≠ ""
  | .arr xs => !xs.isEmpty
  | .obj fs => !fs.isEmpty

/-- Python `a or b`: `a` if truthy, otherwise `b`. -/
def pyOr (a b : Json) : Json :=
  if pyTruthy a then a else b

/-- Python `x.get(key, default)`: only dicts have `.get`; on anything else
(including `None`) this raises `AttributeError`.  A key bound to JSON `null`
is returned as `None` (`Json.null`), not as the default. -/
def pyGet (j : Json) (key : String) (default : Json) : Except PyErr Json :=
  match j with
  | .obj fields =>
    match Json.find? fields key with
    | some v => .ok v
    | none => .ok default
  | _ => .error .attributeError

/-- Python `x[key]` with a string key: dict lookup raising `KeyError` when the
key is absent; subscripting a non-dict with a string raises `TypeError`. -/
def pySubscr (j : Json) (key : String) : Except PyErr Json :=
  match j with
  | .obj fields =>
    match Json.find? fields key with
    | some v => .ok v
    | none => .error (.keyError key)
  | _ => .error .typeError

/-- Python `len(x)`: length of a list, string or dict; `TypeError` otherwise. -/
def pyLen : Json → Except PyErr Nat
  | .arr xs => .ok xs.length
  | .str s => .ok s.length
  | .obj fs => .ok fs.length
  | _ => .error .typeError

/-- Python `x[i]` with a non-negative integer index: list indexing (with
`IndexError` past the end), string indexing (yielding a one-character
string), `KeyError` on a dict with string keys, `TypeError` otherwise. -/
def pyIndex (j : Json) (i : Nat) : Except PyErr Json :=
  match j with
  | .arr xs =>
    match xs.get? i with
    | some v => .ok v
    | none => .error .indexError
  | .str s =>
    match s.toList.get? i with
    | some c => .ok (.str (String.singleton c))
    | none => .error .indexError
  | .obj _ => .error (.keyError (toString i))
  | _ => .error .typeError

/-- Python `for x in j`: a list yields its elements, a string its characters
(as one-character strings), a dict its keys; anything else raises
`TypeError`. -/
def pyIter : Json → Except PyErr (List Json)
  | .arr xs => .ok xs
  | .str s => .ok (s.toList.map fun c => .str (String.singleton c))
  | .obj fs => .ok (fs.map fun p => .str p.1)
  | _ => .error .typeError

/-! ## The retrying Fetcher (`fetch_json_with_retry`, lines 13-36)

One network attempt either raises (modelled as `Except.error` with the
exception's message) or returns a parsed JSON document.  The oracle
`outcome : Nat → Except String Json` gives the result of attempt `i`.
The trace records the returned value, the number of attempts actually made,
the sleep durations (in seconds, as exact rationals standing for the float
values `backoff ** attempt`), and the diagnostic lines printed. -/

structure FetchTrace where
  result : Option Json
  attempts : Nat
  sleeps : List ℚ
  log : List String

/-- The diagnostic printed on the final failed attempt:
`[FAIL] {url} after {tries} tries: {e}`. -/
def failMsg (url : String) (tries : Nat) (e : String) : String :=
  "[FAIL] " ++ url ++ " after " ++ toString tries ++ " tries: " ++ e

/-- The body of the `for attempt in range(tries)` loop, by recursion on the
number of remaining iterations (`remaining = tries - attempt` at the entry
point).  On success the JSON is returned at once; on failure the loop sleeps
`backoff ** attempt` if attempts remain, or prints the failure diagnostic;
falling off the loop returns `None`. -/
def fetchAux (outcome : Nat → Except String Json) (url : String) (tries : Nat)
    (backoff : ℚ) : Nat → Nat → FetchTrace
  | _, 0 => ⟨none, 0, [], []⟩
  | attempt, remaining + 1 =>
    match outcome attempt with
    | .ok j => ⟨some j, 1, [], []⟩
    | .error e =>
      let rest := fetchAux outcome url tries backoff (attempt + 1) remaining
      if attempt < tries - 1 then
        ⟨rest.result, rest.attempts + 1, backoff ^ attempt :: rest.sleeps, rest.log⟩
      else
        ⟨rest.result, rest.attempts + 1, rest.sleeps, failMsg url tries e :: rest.log⟩

/-- `fetch_json_with_retry(url, tries=…, timeout=…, backoff=…)`.  The timeout
only parametrises the underlying HTTP call (already abstracted into the
oracle) and the session only affects connection reuse, so neither appears. -/
def fetch_json_with_retry (url : String) (outcome : Nat → Except String Json)
    (tries : Nat) (backoff : ℚ) : FetchTrace :=
  fetchAux outcome url tries backoff 0 tries

/-- Default retry policy of `fetch_json_with_retry` (line 17): `tries = 5`. -/
def default_tries : Nat := 5

/-- Default retry policy of `fetch_json_with_retry` (line 19): `backoff = 1.5`. -/
def default_backoff : ℚ := 3 / 2

/-- Per-dataset retry policy used by `collect_features` (line 56): `tries = 6`. -/
def dataset_tries : Nat := 6

/-- Per-dataset retry policy used by `collect_features` (line 56): `backoff = 1.7`. -/
def dataset_backoff : ℚ := 17 / 10

/-- A network oracle: for each URL, the outcome of each attempt. -/
def Net : Type := String → Nat → Except String Json

/-- The value a call to the Fetcher hands back to its caller. -/
def fetchResult (url : String) (net : Net) (tries : Nat) (backoff : ℚ) :
    Option Json :=
  (fetch_json_with_retry url (net url) tries backoff).result

/-! ## The catalog resolver (`parse_dataset`, lines 38-47) -/

/-- The fixed catalog root URL (line 11). -/
def URI_root : String := "https://rageo.minv.sk/opendata/katalog.json"

/-- The list comprehension `[o["iri"] for o in ds]` (line 46): subscripting
evaluates left to right and the first failing entry raises. -/
def iriList : List Json → Except PyErr (List Json)
  | [] => .ok []
  | o :: os => do
    let v ← pySubscr o "iri"
    let vs ← iriList os
    .ok (v :: vs)

/-- The `for g in graph` loop of `parse_dataset` (lines 43-47): the first node
whose `dcat:dataset` entry is not `None` is used; its value is iterated and
each entry's `iri` field collected; if no node matches, `[]` is returned. -/
def graphLoop : List Json → Except PyErr (List Json)
  | [] => .ok []
  | g :: rest => do
    let ds ← pyGet g "dcat:dataset" Json.null
    if ds.isNull then
      graphLoop rest
    else do
      let entries ← pyIter ds
      iriList entries

/-- The body of `parse_dataset` after the fetch (lines 41-47), applied to the
Fetcher's result `r`.  When the fetch failed (`r = none`), `r.get("@graph", [])`
is an attribute access on `None` and raises `AttributeError`. -/
def parse_dataset_body (r : Option Json) : Except PyErr (List Json) :=
  match r with
  | none => .error .attributeError
  | some doc => do
    let graph ← pyGet doc "@graph" (Json.arr [])
    let gs ← pyIter graph
    graphLoop gs

/-- `parse_dataset(uri)` (lines 38-47): fetch the catalog with the Fetcher's
default policy, then walk the graph. -/
def parse_dataset (uri : String) (net : Net) : Except PyErr (List Json) :=
  parse_dataset_body (fetchResult uri net default_tries default_backoff)

/-! ## The feature collector (`collect_features`, lines 50-68) -/

/-- The warning printed when a fetched document's `features` is empty or
missing (line 66). -/
def warnMsg (uri : String) : String :=
  "Warning: features in " ++ uri ++ " is empty/does not exist!"

/-- The features accumulated by `collect_features` together with the warnings
it prints, in order. -/
structure CollectOut where
  features : List Json
  warnings : List String

/-- The `for uri in uris` loop of `collect_features` (lines 55-66): fetch each
URI with the patient per-dataset policy; skip it on a failed fetch; when the
document's `features` value is truthy, iterate it and keep only the entries
that are dicts; otherwise print the per-URI warning. -/
def collectLoop (net : Net) : List String → Except PyErr CollectOut
  | [] => .ok ⟨[], []⟩
  | uri :: rest =>
    match fetchResult uri net dataset_tries dataset_backoff with
    | none => collectLoop net rest
    | some r => do
      let F ← pyGet r "features" (Json.arr [])
      if pyTruthy F then do
        let fs ← pyIter F
        let out ← collectLoop net rest
        .ok ⟨fs.filter Json.isObj ++ out.features, out.warnings⟩
      else do
        let out ← collectLoop net rest
        .ok ⟨out.features, warnMsg uri :: out.warnings⟩

/-- `collect_features(uris)` (lines 50-68). -/
def collect_features (uris : List String) (net : Net) : Except PyErr CollectOut :=
  collectLoop net uris

/-! ## The row flattener (`create_table`, lines 70-124)

The source builds fourteen column lists in a single loop over the features and
then assembles the column dict.  We embed the per-feature body (lines 87-106)
as `rowOf`, the loop as `create_rows`, and the column assembly (lines 107-122)
as `create_table_columns`; `create_table` is their composition, which yields
the same fourteen column lists. -/

/-- One flat output row: the fourteen values one feature contributes, in the
order the source appends them. -/
structure Row where
  identifier : Json
  nuts3_name : Json
  nuts3_id : Json
  lau1_name : Json
  lau1_id : Json
  lau2_name : Json
  lau2_id : Json
  district_name : Json
  streetname : Json
  propertyregistrationnumber : Json
  orientationnumber : Json
  postalcode : Json
  adrbod_x : Json
  adrbod_y : Json

/-- The loop body of `create_table` for one feature (lines 87-106), in source
evaluation order: coalesce `properties`, `geometry` and `coordinates` with
`or`, take the first two coordinates only when there are at least two, and
read every properties field with an empty-string default. -/
def rowOf (feature : Json) : Except PyErr Row := do
  let p ← pyGet feature "properties" Json.null
  let properties := pyOr p (Json.obj [])
  let g ← pyGet feature "geometry" Json.null
  let geometry := pyOr g (Json.obj [])
  let c ← pyGet geometry "coordinates" Json.null
  let coords := pyOr c (Json.arr [])
  let n ← pyLen coords
  let x ← if 2 ≤ n then pyIndex coords 0 else pure (Json.str "")
  let y ← if 2 ≤ n then pyIndex coords 1 else pure (Json.str "")
  let ids ← pyGet properties "identifier" (Json.str "")
  let nuts3_names ← pyGet properties "nuts3_name" (Json.str "")
  let nuts3_ids ← pyGet properties "nuts3_id" (Json.str "")
  let lau1_names ← pyGet properties "lau1_name" (Json.str "")
  let lau1_ids ← pyGet properties "lau1_id" (Json.str "")
  let lau2_names ← pyGet properties "lau2_name" (Json.str "")
  let lau2_ids ← pyGet properties "lau2_id" (Json.str "")
  let district_names ← pyGet properties "district_name" (Json.str "")
  let streetnames ← pyGet properties "streetname" (Json.str "")
  let prns ← pyGet properties "propertyregistrationnumber" (Json.str "")
  let orientationnumbers ← pyGet properties "orientationnumber" (Json.str "")
  let postalcodes ← pyGet properties "postalcode" (Json.str "")
  .ok ⟨ids, nuts3_names, nuts3_ids, lau1_names, lau1_ids, lau2_names, lau2_ids,
    district_names, streetnames, prns, orientationnumbers, postalcodes, x, y⟩

/-- The `for feature in features` loop (lines 86-106), one row per feature. -/
def create_rows : List Json → Except PyErr (List Row)
  | [] => .ok []
  | f :: fs => do
    let r ← rowOf f
    let rs ← create_rows fs
    .ok (r :: rs)

/-- The column dict `res` (lines 107-122): fourteen named columns, each the
per-feature values in input order. -/
def create_table_columns (rows : List Row) : List (String × List Json) :=
  [("Identifikátor", rows.map Row.identifier),
   ("Kraj", rows.map Row.nuts3_name),
   ("ID kraja", rows.map Row.nuts3_id),
   ("Okres", rows.map Row.lau1_name),
   ("ID Okresu", rows.map Row.lau1_id),
   ("Obec", rows.map Row.lau2_name),
   ("ID obce", rows.map Row.lau2_id),
   ("Časť obce", rows.map Row.district_name),
   ("Ulica", rows.map Row.streetname),
   ("Súpisné číslo", rows.map Row.propertyregistrationnumber),
   ("Orientačné číslo celé", rows.map Row.orientationnumber),
   ("PSČ", rows.map Row.postalcode),
   ("ADRBOD_X", rows.map Row.adrbod_x),
   ("ADRBOD_Y", rows.map Row.adrbod_y)]

/-- `create_table(features)` (lines 70-124). -/
def create_table (features : List Json) :
    Except PyErr (List (String × List Json)) :=
  (create_rows features).map create_table_columns

/-! ## The partitioner/writer (module level, lines 126-190)

The pandas `DataFrame` built from the table is the list of rows; sorting by
the `Kraj` column, filtering `df[df["Kraj"] == kraj]` and the `to_csv` calls
are modelled on that list.  Only string-valued `Kraj` cells occur in the data
(and only they can equal a region name), so the sort key of a non-string cell
is immaterial to the claims; we use `""`. -/

/-- The fixed eight-entry region mapping (lines 126-135), in source order. -/
def name_to_abb : List (String × String) :=
  [("Banskobystrický", "BBSK"),
   ("Bratislavský", "BSK"),
   ("Nitriansky", "NSK"),
   ("Košický", "KSK"),
   ("Prešovský", "PSK"),
   ("Trenčiansky", "TSK"),
   ("Trnavský", "TTSK"),
   ("Žilinský", "ZSK")]

/-- The sort key: the row's `Kraj` cell as a string. -/
def krajStr (r : Row) : String :=
  match r.nuts3_name with
  | .str s => s
  | _ => ""

/-- `df["Kraj"] == kraj` for one row: elementwise equality of the `Kraj` cell
with the region name string (a non-string cell compares unequal). -/
def Row.krajIs (r : Row) (name : String) : Bool :=
  match r.nuts3_name with
  | .str s => s = name
  | _ => false

/-- `df.sort_values("Kraj", kind="stable")` (line 153): a stable sort of the
rows by the `Kraj` column. -/
def sort_by_kraj (rows : List Row) : List Row :=
  rows.mergeSort fun a b => krajStr a ≤ krajStr b

/-- The rows written to the aggregate file `kraje.csv` (line 157). -/
def kraje_rows (rows : List Row) : List Row :=
  sort_by_kraj rows

/-- The per-region write loop (lines 185-190) over the sorted frame `df`: for
each `(kraj, abb)` mapping entry, filter the rows whose `Kraj` equals `kraj`;
an empty subset is skipped, a non-empty one is written to `{abb}.csv`.
The result is the list of (file code, rows written) actually produced. -/
def write_regions (df : List Row) : List (String × List Row) :=
  name_to_abb.filterMap fun p =>
    let df_k := df.filter fun r => Row.krajIs r p.1
    if df_k.isEmpty then none else some (p.2, df_k)

/-- The per-region files produced from the unsorted table rows (the source
filters the sorted frame). -/
def region_files (rows : List Row) : List (String × List Row) :=
  write_regions (sort_by_kraj rows)

/-! ## Basic reduction lemmas -/

@[simp] theorem exceptBind_ok {α β ε : Type} (a : α) (f : α → Except ε β) :
    (Except.ok a >>= f : Except ε β) = f a := rfl

@[simp] theorem exceptBind_error {α β ε : Type} (e : ε) (f : α → Except ε β) :
    ((Except.error e : Except ε α) >>= f : Except ε β) = Except.error e := rfl

/-! ## The Fetcher on a run where every attempt fails -/

theorem fetchAux_all_fail (outcome : Nat → Except String Json) (url : String)
    (tries : Nat) (backoff : ℚ) (e : String)
    (hf : ∀ i, i < tries → ∃ d, outcome i = Except.error d)
    (hlast : outcome (tries - 1) = Except.error e) :
    ∀ remaining attempt, attempt + remaining = tries → 1 ≤ remaining →
      fetchAux outcome url tries backoff attempt remaining =
        ⟨none, remaining,
          (List.range' attempt (remaining - 1)).map (fun j => backoff ^ j),
          [failMsg url tries e]⟩ := by
  intro remaining
  induction remaining with
  | zero => intro attempt _ h; omega
  | succ r ih =>
    intro attempt hsum _
    obtain ⟨d, hd⟩ := hf attempt (by omega)
    match r, ih with
    | 0, _ =>
      have hattempt : attempt = tries - 1 := by omega
      have hde : d = e := by
        rw [hattempt] at hd
        rw [hd] at hlast
        injection hlast
      subst hde
      conv_lhs => rw [fetchAux.eq_def]
      simp only [hd]
      rw [if_neg (by omega)]
      simp [fetchAux, List.range']
    | r' + 1, ih =>
      have hlt : attempt < tries - 1 := by omega
      have hrest := ih (attempt + 1) (by omega) (by omega)
      conv_lhs => rw [fetchAux.eq_def]
      simp only [hd]
      rw [if_pos hlt, hrest]
      simp [List.range'_succ]

theorem fetch_all_fail (url : String) (outcome : Nat → Except String Json)
    (tries : Nat) (backoff : ℚ) (e : String) (htries : 1 ≤ tries)
    (hf : ∀ i, i < tries → ∃ d, outcome i = Except.error d)
    (hlast : outcome (tries - 1) = Except.error e) :
    fetch_json_with_retry url outcome tries backoff =
      ⟨none, tries, (List.range (tries - 1)).map (fun j => backoff ^ j),
        [failMsg url tries e]⟩ := by
  rw [fetch_json_with_retry,
    fetchAux_all_fail outcome url tries backoff e hf hlast tries 0 (by omega) htries,
    List.range_eq_range']

theorem fetchResult_all_fail (url : String) (net : Net) (tries : Nat)
    (backoff : ℚ) (htries : 1 ≤ tries)
    (hf : ∀ i, i < tries → ∃ d, net url i = Except.error d) :
    fetchResult url net tries backoff = none := by
  obtain ⟨e, he⟩ := hf (tries - 1) (by omega)
  rw [fetchResult, fetch_all_fail url (net url) tries backoff e htries hf he]

theorem fetchResult_first_ok (url : String) (net : Net) (tries : Nat)
    (backoff : ℚ) (j : Json) (htries : 1 ≤ tries) (h0 : net url 0 = Except.ok j) :
    fetchResult url net tries backoff = some j := by
  match tries, htries with
  | t + 1, _ =>
    rw [fetchResult, fetch_json_with_retry]
    conv_lhs => rw [fetchAux.eq_def]
    simp [h0]

/-- Claim C1: when every attempt on a URL fails (non-2xx status or unparsable
body, i.e. the oracle raises), the Fetcher makes exactly `tries` attempts,
sleeps `backoff ^ 0, …, backoff ^ (tries - 2)` seconds between consecutive
attempts, prints exactly one diagnostic naming the URL, the attempt count and
the last error, and returns a null-result; the model is a total function into
`FetchTrace`, so no exception reaches the caller. -/
theorem claim_C1_fetcher_retry_exhaustion (url : String)
    (outcome : Nat → Except String Json) (tries : Nat) (backoff : ℚ)
    (htries : 1 ≤ tries) (hbackoff : 1 < backoff)
    (hfail : ∀ i, i < tries → ∃ d, outcome i = Except.error d) :
    (fetch_json_with_retry url outcome tries backoff).result = none ∧
    (fetch_json_with_retry url outcome tries backoff).attempts = tries ∧
    (fetch_json_with_retry url outcome tries backoff).sleeps =
      (List.range (tries - 1)).map (fun j => backoff ^ j) ∧
    ∀ e, outcome (tries - 1) = Except.error e →
      (fetch_json_with_retry url outcome tries backoff).log =
        [failMsg url tries e] := by
  obtain ⟨e, he⟩ := hfail (tries - 1) (by omega)
  rw [fetch_all_fail url outcome tries backoff e htries hfail he]
  refine ⟨rfl, rfl, rfl, ?_⟩
  intro e2 he2
  rw [he] at he2
  injection he2 with h3
  rw [h3]

/-- A network attempt oracle where every attempt raises with message `boom`. -/
def boomOutcome : Nat → Except String Json := fun _ => Except.error "boom"

/-- Witness for C1: two failing attempts at backoff 2 against url `u`. -/
theorem claim_C1_witness :
    (1 ≤ 2 ∧ (1 : ℚ) < 2 ∧ ∀ i, i < 2 → ∃ d, boomOutcome i = Except.error d) ∧
    ((fetch_json_with_retry "u" boomOutcome 2 2).result = none ∧
     (fetch_json_with_retry "u" boomOutcome 2 2).attempts = 2 ∧
     (fetch_json_with_retry "u" boomOutcome 2 2).sleeps =
       (List.range 1).map (fun j => (2 : ℚ) ^ j) ∧
     ∀ e, boomOutcome 1 = Except.error e →
       (fetch_json_with_retry "u" boomOutcome 2 2).log = [failMsg "u" 2 e]) :=
  ⟨⟨by decide, one_lt_two, fun _ _ => ⟨"boom", rfl⟩⟩,
    claim_C1_fetcher_retry_exhaustion "u" boomOutcome 2 2 (by decide) one_lt_two
      (fun _ _ => ⟨"boom", rfl⟩)⟩

/-! ## Catalog resolution (C5, C6, C9) -/

/-- Claim C5: when the Fetcher fails on the catalog root (every attempt of the
default policy fails), `parse_dataset` faults with the `AttributeError` of
`None.get` — it does not continue with an empty catalog. -/
theorem claim_C5_null_catalog_faults (net : Net)
    (hfail : ∀ i, i < default_tries → ∃ d, net URI_root i = Except.error d) :
    parse_dataset URI_root net = Except.error PyErr.attributeError ∧
    ∀ l, parse_dataset URI_root net ≠ Except.ok l := by
  have h : fetchResult URI_root net default_tries default_backoff = none :=
    fetchResult_all_fail _ _ _ _ (by decide) hfail
  rw [parse_dataset, h]
  exact ⟨rfl, fun l h2 => by simp [parse_dataset_body] at h2⟩

/-- A network where every attempt on every URL raises with message `down`. -/
def downNet : Net := fun _ _ => Except.error "down"

/-- Witness for C5: a network that is entirely down. -/
theorem claim_C5_witness :
    (∀ i, i < default_tries → ∃ d, downNet URI_root i = Except.error d) ∧
    (parse_dataset URI_root downNet = Except.error PyErr.attributeError ∧
     ∀ l, parse_dataset URI_root downNet ≠ Except.ok l) :=
  ⟨fun _ _ => ⟨"down", rfl⟩,
    claim_C5_null_catalog_faults downNet (fun _ _ => ⟨"down", rfl⟩)⟩

theorem graphLoop_skip (pre rest : List Json)
    (h : ∀ p ∈ pre, pyGet p "dcat:dataset" Json.null = Except.ok Json.null) :
    graphLoop (pre ++ rest) = graphLoop rest := by
  induction pre with
  | nil => rfl
  | cons p pre ih =>
    have hp := h p (by simp)
    simp only [List.cons_append, graphLoop, hp]
    simp [Json.isNull, ih (fun q hq => h q (by simp [hq]))]

theorem graphLoop_found (g : Json) (rest entries : List Json)
    (hg : pyGet g "dcat:dataset" Json.null = Except.ok (Json.arr entries)) :
    graphLoop (g :: rest) = iriList entries := by
  simp [graphLoop, hg, Json.isNull, pyIter]

/-- The `iri` field of a catalog entry, as the spec describes it. -/
def specIriOf (o : Json) : Json :=
  match o with
  | .obj fs => (Json.find? fs "iri").getD Json.null
  | _ => Json.null

theorem iriList_ok (entries : List Json)
    (h : ∀ o ∈ entries, ∃ fs v, o = Json.obj fs ∧ Json.find? fs "iri" = some v) :
    iriList entries = Except.ok (entries.map specIriOf) := by
  induction entries with
  | nil => rfl
  | cons o os ih =>
    obtain ⟨fs, v, ho, hv⟩ := h o (by simp)
    subst ho
    simp [iriList, pySubscr, hv, specIriOf, ih (fun q hq => h q (by simp [hq]))]

theorem iriList_error (epre epost : List Json) (bad : Json) (err : PyErr)
    (hpre : ∀ o ∈ epre, ∃ v, pySubscr o "iri" = Except.ok v)
    (hbad : pySubscr bad "iri" = Except.error err) :
    iriList (epre ++ bad :: epost) = Except.error err := by
  induction epre with
  | nil => simp [iriList, hbad]
  | cons o os ih =>
    obtain ⟨v, hv⟩ := hpre o (by simp)
    simp [iriList, hv, ih (fun q hq => hpre q (by simp [hq]))]

theorem parse_dataset_ok_doc (uri : String) (net : Net) (gs : List Json)
    (h0 : net uri 0 = Except.ok (Json.obj [("@graph", Json.arr gs)])) :
    parse_dataset uri net = graphLoop gs := by
  rw [parse_dataset,
    fetchResult_first_ok uri net default_tries default_backoff _ (by decide) h0]
  rfl

/-- Claim C6: for a successfully fetched catalog document, `parse_dataset`
returns the `iri` field of each entry of the dataset relation of the first
graph node carrying such a relation, in order, ignoring any later nodes; and
when no node carries the relation it returns the empty sequence. -/
theorem claim_C6_parse_dataset_first_node (uri : String) (net : Net)
    (gs : List Json)
    (h0 : net uri 0 = Except.ok (Json.obj [("@graph", Json.arr gs)])) :
    (∀ pre g post entries, gs = pre ++ g :: post →
      (∀ p ∈ pre, pyGet p "dcat:dataset" Json.null = Except.ok Json.null) →
      pyGet g "dcat:dataset" Json.null = Except.ok (Json.arr entries) →
      (∀ o ∈ entries, ∃ fs v, o = Json.obj fs ∧ Json.find? fs "iri" = some v) →
      parse_dataset uri net = Except.ok (entries.map specIriOf)) ∧
    ((∀ p ∈ gs, pyGet p "dcat:dataset" Json.null = Except.ok Json.null) →
      parse_dataset uri net = Except.ok []) := by
  constructor
  · intro pre g post entries hsplit hpre hg hent
    rw [parse_dataset_ok_doc uri net gs h0, hsplit, graphLoop_skip pre _ hpre,
      graphLoop_found g post entries hg, iriList_ok entries hent]
  · intro hall
    rw [parse_dataset_ok_doc uri net gs h0]
    have h2 := graphLoop_skip gs [] hall
    rw [List.append_nil] at h2
    rw [h2]
    rfl

/-- A catalog entry carrying an `iri` field. -/
def sampleEntry : Json := Json.obj [("iri", Json.str "http://x/1")]

/-- A graph node carrying a one-entry dataset relation. -/
def sampleGraphNode : Json := Json.obj [("dcat:dataset", Json.arr [sampleEntry])]

/-- A catalog document with a single graph node. -/
def catDoc : Json := Json.obj [("@graph", Json.arr [sampleGraphNode])]

/-- A network that serves `catDoc` for every URL on the first attempt. -/
def catNet : Net := fun _ _ => Except.ok catDoc

/-- Witness for C6: the sample catalog resolves to its one dataset IRI. -/
theorem claim_C6_witness :
    catNet URI_root 0 = Except.ok (Json.obj [("@graph", Json.arr [sampleGraphNode])]) ∧
    parse_dataset URI_root catNet = Except.ok [Json.str "http://x/1"] := by
  refine ⟨rfl, ?_⟩
  have h := (claim_C6_parse_dataset_first_node URI_root catNet [sampleGraphNode] rfl).1
    [] sampleGraphNode [] [sampleEntry] rfl (by simp) rfl ?_
  · exact h
  · intro o ho
    rw [List.mem_singleton] at ho
    subst ho
    exact ⟨[("iri", Json.str "http://x/1")], Json.str "http://x/1", rfl, rfl⟩

/-- Claim C9: when the first dataset-relation node contains an entry on which
`o["iri"]` raises (a map lacking the key, or a non-map), `parse_dataset`
propagates that fault instead of skipping the entry or substituting a
default. -/
theorem claim_C9_parse_dataset_entry_fault (uri : String) (net : Net)
    (gs pre post entries epre epost : List Json) (g bad : Json) (err : PyErr)
    (h0 : net uri 0 = Except.ok (Json.obj [("@graph", Json.arr gs)]))
    (hsplit : gs = pre ++ g :: post)
    (hpre : ∀ p ∈ pre, pyGet p "dcat:dataset" Json.null = Except.ok Json.null)
    (hg : pyGet g "dcat:dataset" Json.null = Except.ok (Json.arr entries))
    (hentries : entries = epre ++ bad :: epost)
    (hepre : ∀ o ∈ epre, ∃ v, pySubscr o "iri" = Except.ok v)
    (hbad : pySubscr bad "iri" = Except.error err) :
    parse_dataset uri net = Except.error err ∧
    ∀ l, parse_dataset uri net ≠ Except.ok l := by
  have h := parse_dataset_ok_doc uri net gs h0
  rw [hsplit] at h
  rw [h, graphLoop_skip pre _ hpre, graphLoop_found g post entries hg, hentries,
    iriList_error epre epost bad err hepre hbad]
  exact ⟨rfl, fun l h2 => by cases h2⟩

/-- A catalog document whose only dataset entry is a map lacking `iri`. -/
def badCatDoc : Json :=
  Json.obj [("@graph", Json.arr [Json.obj [("dcat:dataset", Json.arr [Json.obj []])]])]

/-- A network that serves `badCatDoc` for every URL on the first attempt. -/
def badCatNet : Net := fun _ _ => Except.ok badCatDoc

/-- Witness for C9: an entry without `iri` makes catalog resolution raise
`KeyError` instead of skipping it. -/
theorem claim_C9_witness :
    pySubscr (Json.obj []) "iri" = Except.error (PyErr.keyError "iri") ∧
    (parse_dataset URI_root badCatNet = Except.error (PyErr.keyError "iri") ∧
     ∀ l, parse_dataset URI_root badCatNet ≠ Except.ok l) :=
  ⟨rfl,
    claim_C9_parse_dataset_entry_fault URI_root badCatNet
      [Json.obj [("dcat:dataset", Json.arr [Json.obj []])]] [] []
      [Json.obj []] [] [] (Json.obj [("dcat:dataset", Json.arr [Json.obj []])])
      (Json.obj []) (PyErr.keyError "iri") rfl rfl (by simp) rfl rfl
      (by simp) rfl⟩

/-! ## Row flattening (C2, C10, C3) -/

@[simp] theorem pyGet_obj (fs : List (String × Json)) (k : String) (d : Json) :
    pyGet (Json.obj fs) k d = Except.ok ((Json.find? fs k).getD d) := by
  cases h : Json.find? fs k <;> simp [pyGet, h]

theorem pyOr_falsy (a b : Json) (h : pyTruthy a = false) : pyOr a b = b := by
  simp [pyOr, h]

@[simp] theorem pyOr_obj_empty (fs : List (String × Json)) :
    pyOr (Json.obj fs) (Json.obj []) = Json.obj fs := by
  cases fs <;> simp [pyOr, pyTruthy]

@[simp] theorem pyOr_arr_empty (xs : List Json) :
    pyOr (Json.arr xs) (Json.arr []) = Json.arr xs := by
  cases xs <;> simp [pyOr, pyTruthy]

theorem pyIndex_arr (cs : List Json) (i : Nat) (h : i < cs.length) (d : Json) :
    pyIndex (Json.arr cs) i = Except.ok (cs.getD i d) := by
  simp [pyIndex, List.getD_eq_getElem?_getD, List.getElem?_eq_getElem h]

/-- The row the spec prescribes for a feature with properties fields `props`
and coordinate list `cs`: every properties field read with an empty-string
default, the first two coordinates taken as-is when at least two exist and
the empty string otherwise. -/
def specRowOf (props : List (String × Json)) (cs : List Json) : Row where
  identifier := (Json.find? props "identifier").getD (Json.str "")
  nuts3_name := (Json.find? props "nuts3_name").getD (Json.str "")
  nuts3_id := (Json.find? props "nuts3_id").getD (Json.str "")
  lau1_name := (Json.find? props "lau1_name").getD (Json.str "")
  lau1_id := (Json.find? props "lau1_id").getD (Json.str "")
  lau2_name := (Json.find? props "lau2_name").getD (Json.str "")
  lau2_id := (Json.find? props "lau2_id").getD (Json.str "")
  district_name := (Json.find? props "district_name").getD (Json.str "")
  streetname := (Json.find? props "streetname").getD (Json.str "")
  propertyregistrationnumber :=
    (Json.find? props "propertyregistrationnumber").getD (Json.str "")
  orientationnumber := (Json.find? props "orientationnumber").getD (Json.str "")
  postalcode := (Json.find? props "postalcode").getD (Json.str "")
  adrbod_x := if 2 ≤ cs.length then cs.getD 0 (Json.str "") else Json.str ""
  adrbod_y := if 2 ≤ cs.length then cs.getD 1 (Json.str "") else Json.str ""

/-- An input feature with the given properties fields and coordinate list. -/
def mkFeature (props : List (String × Json)) (cs : List Json) : Json :=
  Json.obj [("properties", Json.obj props),
    ("geometry", Json.obj [("coordinates", Json.arr cs)])]

theorem rowOf_mkFeature (props : List (String × Json)) (cs : List Json) :
    rowOf (mkFeature props cs) = Except.ok (specRowOf props cs) := by
  by_cases h2 : 2 ≤ cs.length
  · simp [rowOf, mkFeature, Json.find?, pyLen, h2,
      pyIndex_arr cs 0 (by omega) (Json.str ""),
      pyIndex_arr cs 1 (by omega) (Json.str ""), specRowOf]
  · simp [rowOf, mkFeature, Json.find?, pyLen, h2, specRowOf]

/-- Claim C2: the flattener turns a feature with properties fields `props` and
coordinate list `cs` into exactly one row in which each of the twelve
properties-derived columns is the corresponding `props` field (empty string
when absent), and the two coordinate columns are the first two coordinates
kept as-is when at least two exist, the empty string otherwise. -/
theorem claim_C2_flatten_fields (props : List (String × Json)) (cs : List Json) :
    create_table [mkFeature props cs] =
      Except.ok (create_table_columns [specRowOf props cs]) := by
  simp [create_table, create_rows, rowOf_mkFeature, Except.map]

/-- The all-empty row: every cell the empty string. -/
def blankRow : Row where
  identifier := Json.str ""
  nuts3_name := Json.str ""
  nuts3_id := Json.str ""
  lau1_name := Json.str ""
  lau1_id := Json.str ""
  lau2_name := Json.str ""
  lau2_id := Json.str ""
  district_name := Json.str ""
  streetname := Json.str ""
  propertyregistrationnumber := Json.str ""
  orientationnumber := Json.str ""
  postalcode := Json.str ""
  adrbod_x := Json.str ""
  adrbod_y := Json.str ""

/-- Claim C10: a feature in which any of the `properties`, `geometry` or
`coordinates` keys is bound to a falsy value (such as `null`) does not make
`create_table` fault: the falsy value is coalesced to an empty
mapping/sequence and the feature still yields exactly one row with the empty
string in every affected column — the twelve properties columns when
`properties` is falsy, the two coordinate columns when `geometry` or
`coordinates` is falsy, and all fourteen when they are falsy together; the
unaffected columns are flattened as usual. -/
theorem claim_C10_falsy_coalesced (props : List (String × Json)) (cs : List Json)
    (p g c : Json) (hp : pyTruthy p = false) (hg : pyTruthy g = false)
    (hc : pyTruthy c = false) :
    create_table [Json.obj [("properties", p),
        ("geometry", Json.obj [("coordinates", Json.arr cs)])]] =
      Except.ok (create_table_columns [specRowOf [] cs]) ∧
    create_table [Json.obj [("properties", Json.obj props), ("geometry", g)]] =
      Except.ok (create_table_columns [specRowOf props []]) ∧
    create_table [Json.obj [("properties", Json.obj props),
        ("geometry", Json.obj [("coordinates", c)])]] =
      Except.ok (create_table_columns [specRowOf props []]) ∧
    create_table [Json.obj [("properties", p), ("geometry", g)]] =
      Except.ok (create_table_columns [blankRow]) ∧
    create_table [Json.obj [("properties", p),
        ("geometry", Json.obj [("coordinates", c)])]] =
      Except.ok (create_table_columns [blankRow]) := by
  have hp2 := pyOr_falsy p (Json.obj []) hp
  have hg2 := pyOr_falsy g (Json.obj []) hg
  have hc2 := pyOr_falsy c (Json.arr []) hc
  have hn2 := pyOr_falsy Json.null (Json.arr []) rfl
  refine ⟨?_, ?_, ?_, ?_, ?_⟩
  · by_cases h2 : 2 ≤ cs.length
    · simp [create_table, create_rows, rowOf, hp2, Json.find?, pyLen, h2,
        pyIndex_arr cs 0 (by omega) (Json.str ""),
        pyIndex_arr cs 1 (by omega) (Json.str ""), specRowOf, Except.map]
    · simp [create_table, create_rows, rowOf, hp2, Json.find?, pyLen, h2,
        specRowOf, Except.map]
  · simp [create_table, create_rows, rowOf, hg2, hn2, Json.find?, pyLen,
      specRowOf, Except.map]
  · simp [create_table, create_rows, rowOf, hc2, Json.find?, pyLen,
      specRowOf, Except.map]
  · simp [create_table, create_rows, rowOf, hp2, hg2, hn2, pyGet, Json.find?,
      pyLen, blankRow, Except.map]
  · simp [create_table, create_rows, rowOf, hp2, hc2, pyGet, Json.find?,
      pyLen, blankRow, Except.map]

/-- Witness for C10: each slot bound to JSON `null` in turn, the others a
normal properties mapping and coordinate pair. -/
theorem claim_C10_witness :
    (pyTruthy Json.null = false ∧ pyTruthy Json.null = false ∧
     pyTruthy Json.null = false) ∧
    (create_table [Json.obj [("properties", Json.null),
        ("geometry", Json.obj [("coordinates",
          Json.arr [Json.num 171 (-1), Json.num 481 (-1)])])]] =
       Except.ok (create_table_columns
         [specRowOf [] [Json.num 171 (-1), Json.num 481 (-1)]]) ∧
     create_table [Json.obj [("properties",
         Json.obj [("identifier", Json.str "A1")]), ("geometry", Json.null)]] =
       Except.ok (create_table_columns
         [specRowOf [("identifier", Json.str "A1")] []]) ∧
     create_table [Json.obj [("properties",
         Json.obj [("identifier", Json.str "A1")]),
         ("geometry", Json.obj [("coordinates", Json.null)])]] =
       Except.ok (create_table_columns
         [specRowOf [("identifier", Json.str "A1")] []]) ∧
     create_table [Json.obj [("properties", Json.null),
         ("geometry", Json.null)]] =
       Except.ok (create_table_columns [blankRow]) ∧
     create_table [Json.obj [("properties", Json.null),
         ("geometry", Json.obj [("coordinates", Json.null)])]] =
       Except.ok (create_table_columns [blankRow])) :=
  ⟨⟨rfl, rfl, rfl⟩,
    claim_C10_falsy_coalesced [("identifier", Json.str "A1")]
      [Json.num 171 (-1), Json.num 481 (-1)] Json.null Json.null Json.null
      rfl rfl rfl⟩

theorem create_rows_cons (f : Json) (fs : List Json) (rows : List Row)
    (h : create_rows (f :: fs) = Except.ok rows) :
    ∃ r rs, rowOf f = Except.ok r ∧ create_rows fs = Except.ok rs ∧
      rows = r :: rs := by
  cases hr : rowOf f with
  | error e => rw [create_rows, hr] at h; cases h
  | ok r =>
    cases hrest : create_rows fs with
    | error e => rw [create_rows, hr, hrest] at h; cases h
    | ok rs =>
      rw [create_rows, hr, hrest] at h
      simp at h
      exact ⟨r, rs, rfl, rfl, h.symm⟩

theorem create_rows_length (fs : List Json) (rows : List Row)
    (h : create_rows fs = Except.ok rows) : rows.length = fs.length := by
  induction fs generalizing rows with
  | nil => rw [create_rows] at h; cases h; rfl
  | cons f fs ih =>
    obtain ⟨r, rs, _, hrest, hrows⟩ := create_rows_cons f fs rows h
    subst hrows
    simp [ih rs hrest]

theorem create_rows_get (fs : List Json) (rows : List Row)
    (h : create_rows fs = Except.ok rows) :
    ∀ i (hi : i < fs.length) (hi2 : i < rows.length),
      rowOf (fs.get ⟨i, hi⟩) = Except.ok (rows.get ⟨i, hi2⟩) := by
  induction fs generalizing rows with
  | nil => intro i hi _; simp at hi
  | cons f fs ih =>
    obtain ⟨r, rs, hr, hrest, hrows⟩ := create_rows_cons f fs rows h
    subst hrows
    intro i hi hi2
    match i with
    | 0 => simpa using hr
    | i + 1 =>
      simp only [List.get_cons_succ]
      exact ih rs hrest i (by simpa using hi) (by simpa using hi2)

/-- The fourteen column names, in output order. -/
def columnNames : List String :=
  ["Identifikátor", "Kraj", "ID kraja", "Okres", "ID Okresu", "Obec",
   "ID obce", "Časť obce", "Ulica", "Súpisné číslo",
   "Orientačné číslo celé", "PSČ", "ADRBOD_X", "ADRBOD_Y"]

/-- Claim C3: a table produced by `create_table` has exactly the fourteen
named columns, every column as long as the input feature sequence (no feature
dropped), and its row `i` is the flattening of `features[i]`. -/
theorem claim_C3_row_count (features : List Json)
    (t : List (String × List Json)) (h : create_table features = Except.ok t) :
    t.map Prod.fst = columnNames ∧ t.length = 14 ∧
    (∀ p ∈ t, p.2.length = features.length) ∧
    ∃ rows, create_rows features = Except.ok rows ∧
      t = create_table_columns rows ∧ rows.length = features.length ∧
      ∀ i (hi : i < features.length) (hi2 : i < rows.length),
        rowOf (features.get ⟨i, hi⟩) = Except.ok (rows.get ⟨i, hi2⟩) := by
  cases hrows : create_rows features with
  | error e => rw [create_table, hrows] at h; cases h
  | ok rows =>
    rw [create_table, hrows] at h
    simp [Except.map] at h
    subst h
    have hlen := create_rows_length features rows hrows
    refine ⟨rfl, rfl, ?_, rows, rfl, rfl, hlen,
      create_rows_get features rows hrows⟩
    intro p hp
    simp [create_table_columns] at hp
    rcases hp with rfl | rfl | rfl | rfl | rfl | rfl | rfl | rfl | rfl | rfl | rfl | rfl | rfl | rfl <;>
      simp [hlen]

/-- A concrete feature for the witnesses. -/
def sampleFeature : Json :=
  Json.obj [("properties", Json.obj [("identifier", Json.str "A1"),
      ("nuts3_name", Json.str "Bratislavský")]),
    ("geometry", Json.obj [("coordinates",
      Json.arr [Json.num 171 (-1), Json.num 481 (-1)])])]

/-- The row `sampleFeature` flattens to. -/
def sampleRow : Row where
  identifier := Json.str "A1"
  nuts3_name := Json.str "Bratislavský"
  nuts3_id := Json.str ""
  lau1_name := Json.str ""
  lau1_id := Json.str ""
  lau2_name := Json.str ""
  lau2_id := Json.str ""
  district_name := Json.str ""
  streetname := Json.str ""
  propertyregistrationnumber := Json.str ""
  orientationnumber := Json.str ""
  postalcode := Json.str ""
  adrbod_x := Json.num 171 (-1)
  adrbod_y := Json.num 481 (-1)

theorem sampleTable_eq :
    create_table [sampleFeature] =
      Except.ok (create_table_columns [sampleRow]) := rfl

/-- Witness for C3: the one-feature table. -/
theorem claim_C3_witness :
    create_table [sampleFeature] = Except.ok (create_table_columns [sampleRow]) ∧
    ((create_table_columns [sampleRow]).map Prod.fst = columnNames ∧
     (create_table_columns [sampleRow]).length = 14 ∧
     (∀ p ∈ create_table_columns [sampleRow],
        p.2.length = [sampleFeature].length) ∧
     ∃ rows, create_rows [sampleFeature] = Except.ok rows ∧
       create_table_columns [sampleRow] = create_table_columns rows ∧
       rows.length = [sampleFeature].length ∧
       ∀ i (hi : i < [sampleFeature].length) (hi2 : i < rows.length),
         rowOf ([sampleFeature].get ⟨i, hi⟩) = Except.ok (rows.get ⟨i, hi2⟩)) :=
  ⟨sampleTable_eq, claim_C3_row_count [sampleFeature] _ sampleTable_eq⟩

/-! ## Feature collection (C7) -/

/-- The features one URI contributes, as the spec describes it: nothing on a
failed fetch, otherwise the map-shaped entries of the document's features
list, in order. -/
def contribOf (net : Net) (uri : String) : List Json :=
  match fetchResult uri net dataset_tries dataset_backoff with
  | none => []
  | some r =>
    match pyGet r "features" (Json.arr []) with
    | .ok (.arr l) => l.filter Json.isObj
    | _ => []

/-- Whether the collector warns about a URI: the fetch succeeded but the
document's features value is falsy (missing or empty). -/
def warnsAt (net : Net) (uri : String) : Bool :=
  match fetchResult uri net dataset_tries dataset_backoff with
  | none => false
  | some r =>
    match pyGet r "features" (Json.arr []) with
    | .ok F => !(pyTruthy F)
    | .error _ => false

/-- A successfully fetched dataset document is a map whose features value
(defaulted to `[]`) is a list. -/
def goodDoc (net : Net) (uri : String) : Prop :=
  ∀ r, fetchResult uri net dataset_tries dataset_backoff = some r →
    ∃ l, pyGet r "features" (Json.arr []) = Except.ok (Json.arr l)

theorem claim_C7_collector (uris : List String) (net : Net)
    (h : ∀ uri ∈ uris, goodDoc net uri) :
    collect_features uris net =
      Except.ok ⟨uris.flatMap (contribOf net),
        (uris.filter (warnsAt net)).map warnMsg⟩ := by
  induction uris with
  | nil => rfl
  | cons uri rest ih =>
    have ihr := ih fun u hu => h u (by simp [hu])
    rw [collect_features] at ihr ⊢
    cases hr : fetchResult uri net dataset_tries dataset_backoff with
    | none =>
      simp only [collectLoop, hr, ihr]
      simp [contribOf, warnsAt, hr]
    | some r =>
      obtain ⟨l, hl⟩ := h uri (by simp) r hr
      cases l with
      | nil =>
        simp only [collectLoop, hr, hl, exceptBind_ok]
        rw [if_neg (by simp [pyTruthy])]
        simp [ihr, contribOf, warnsAt, hr, hl, pyTruthy]
      | cons f fs =>
        simp only [collectLoop, hr, hl, exceptBind_ok]
        rw [if_pos (by simp [pyTruthy])]
        simp [ihr, pyIter, contribOf, warnsAt, hr, hl, pyTruthy]

/-- A one-dataset network: the catalog URL is irrelevant here; every URL
serves a document with one map feature, one string entry, on attempt 0. -/
def featNet : Net := fun _ _ =>
  Except.ok (Json.obj [("features", Json.arr [sampleFeature, Json.str "junk"])])

theorem claim_C7_witness :
    (∀ uri ∈ ["http://x/1"], goodDoc featNet uri) ∧
    collect_features ["http://x/1"] featNet =
      Except.ok ⟨["http://x/1"].flatMap (contribOf featNet),
        (["http://x/1"].filter (warnsAt featNet)).map warnMsg⟩ :=
  ⟨fun _ _ r hr => ⟨[sampleFeature, Json.str "junk"],
      by injection hr with h2; subst h2; rfl⟩,
    claim_C7_collector ["http://x/1"] featNet
      (fun _ _ r hr => ⟨[sampleFeature, Json.str "junk"],
        by injection hr with h2; subst h2; rfl⟩)⟩

/-! ## Retry policies (C8) -/

/-- Counterexample to C8 as stated: the per-dataset growth factor 1.7 is not
slower (smaller) than the default 1.5 — the growth factor is larger. -/
theorem claim_C8_counterexample :
    ¬ (default_tries < dataset_tries ∧ dataset_backoff < default_backoff) := by
  intro h
  have h2 := h.2
  rw [dataset_backoff, default_backoff] at h2
  norm_num at h2

/-- Claim C8 (amended): the catalog-root fetch uses the default policy
(5 tries, factor 1.5) while every per-dataset fetch uses more tries and a
larger growth factor, hence longer sleeps (6 tries, factor 1.7). -/
theorem claim_C8_amended_policies :
    default_tries = 5 ∧ default_backoff = 3 / 2 ∧
    dataset_tries = 6 ∧ dataset_backoff = 17 / 10 ∧
    default_tries < dataset_tries ∧ default_backoff < dataset_backoff ∧
    (∀ uri net, parse_dataset uri net =
      parse_dataset_body (fetchResult uri net default_tries default_backoff)) ∧
    (∀ net uri rest, collect_features (uri :: rest) net =
      match fetchResult uri net dataset_tries dataset_backoff with
      | none => collect_features rest net
      | some r =>
        pyGet r "features" (Json.arr []) >>= fun F =>
          if pyTruthy F then
            pyIter F >>= fun fs =>
              collect_features rest net >>= fun out =>
                Except.ok ⟨fs.filter Json.isObj ++ out.features, out.warnings⟩
          else
            collect_features rest net >>= fun out =>
              Except.ok ⟨out.features, warnMsg uri :: out.warnings⟩) := by
  refine ⟨rfl, rfl, rfl, rfl, by norm_num [default_tries, dataset_tries],
    by rw [default_backoff, dataset_backoff]; norm_num, fun uri net => rfl,
    fun net uri rest => rfl⟩

/-! ## Partitioning and writing (C4) -/

theorem assoc_fst_functional (l : List (String × String))
    (h : (l.map Prod.fst).Nodup) :
    ∀ a b₁ b₂, (a, b₁) ∈ l → (a, b₂) ∈ l → b₁ = b₂ := by
  induction l with
  | nil => intro a b₁ b₂ h1; cases h1
  | cons p l ih =>
    simp only [List.map_cons, List.nodup_cons] at h
    intro a b₁ b₂ h1 h2
    rcases List.mem_cons.1 h1 with h1 | h1 <;>
      rcases List.mem_cons.1 h2 with h2 | h2
    · exact congrArg Prod.snd (h1.trans h2.symm)
    · exfalso
      apply h.1
      rw [show p.1 = a from (congrArg Prod.fst h1).symm]
      exact List.mem_map.2 ⟨(a, b₂), h2, rfl⟩
    · exfalso
      apply h.1
      rw [show p.1 = a from (congrArg Prod.fst h2).symm]
      exact List.mem_map.2 ⟨(a, b₁), h1, rfl⟩
    · exact ih h.2 a b₁ b₂ h1 h2

theorem assoc_snd_functional (l : List (String × String))
    (h : (l.map Prod.snd).Nodup) :
    ∀ a₁ a₂ b, (a₁, b) ∈ l → (a₂, b) ∈ l → a₁ = a₂ := by
  induction l with
  | nil => intro a₁ a₂ b h1; cases h1
  | cons p l ih =>
    simp only [List.map_cons, List.nodup_cons] at h
    intro a₁ a₂ b h1 h2
    rcases List.mem_cons.1 h1 with h1 | h1 <;>
      rcases List.mem_cons.1 h2 with h2 | h2
    · exact congrArg Prod.fst (h1.trans h2.symm)
    · exfalso
      apply h.1
      rw [show p.2 = b from (congrArg Prod.snd h1).symm]
      exact List.mem_map.2 ⟨(a₂, b), h2, rfl⟩
    · exfalso
      apply h.1
      rw [show p.2 = b from (congrArg Prod.snd h2).symm]
      exact List.mem_map.2 ⟨(a₁, b), h1, rfl⟩
    · exact ih h.2 a₁ a₂ b h1 h2

theorem name_to_abb_keys_nodup : (name_to_abb.map Prod.fst).Nodup := by decide

theorem name_to_abb_values_nodup : (name_to_abb.map Prod.snd).Nodup := by decide

theorem krajIs_of_eq (r : Row) (name : String) (h : r.nuts3_name = Json.str name) :
    Row.krajIs r name = true := by
  simp [Row.krajIs, h]

theorem eq_of_krajIs (r : Row) (name name' : String)
    (h : r.nuts3_name = Json.str name) (h2 : Row.krajIs r name' = true) :
    name' = name := by
  rw [Row.krajIs, h] at h2
  have h3 : name = name' := by simpa using h2
  exact h3.symm

theorem write_regions_keys_sublist (df : List Row) :
    ((write_regions df).map Prod.fst).Sublist (name_to_abb.map Prod.snd) := by
  rw [write_regions]
  generalize name_to_abb = l
  induction l with
  | nil => simp
  | cons p l ih =>
    simp only [List.filterMap_cons, List.map_cons]
    by_cases he : (df.filter fun r => Row.krajIs r p.1).isEmpty
    · rw [if_pos he]
      exact ih.cons p.2
    · rw [if_neg he]
      simp only [List.map_cons]
      exact ih.cons₂ p.2

theorem mem_write_regions (df : List Row) (c : String) (sub : List Row) :
    (c, sub) ∈ write_regions df ↔
      ∃ name, (name, c) ∈ name_to_abb ∧
        sub = df.filter (fun r => Row.krajIs r name) ∧ sub ≠ [] := by
  rw [write_regions, List.mem_filterMap]
  constructor
  · rintro ⟨p, hp, hf⟩
    by_cases he : (df.filter fun r => Row.krajIs r p.1).isEmpty
    · rw [if_pos he] at hf; cases hf
    · rw [if_neg he] at hf
      injection hf with h0
      have h1 : p.2 = c := congrArg Prod.fst h0
      have h2 : (df.filter fun r => Row.krajIs r p.1) = sub := congrArg Prod.snd h0
      refine ⟨p.1, ?_, h2.symm, ?_⟩
      · have h3 : (p.1, p.2) ∈ name_to_abb := by rwa [Prod.mk.eta]
        rwa [h1] at h3
      rw [← h2]
      simpa [List.isEmpty_iff] using he
  · rintro ⟨name, hn, hsub, hne⟩
    refine ⟨(name, c), hn, ?_⟩
    rw [if_neg (by simpa [List.isEmpty_iff, hsub.symm] using hne)]
    rw [hsub]

/-- Claim C4: every row with a mapped region name appears in exactly one
per-region file — the one named by the mapping's code for that name; every
row appears in the aggregate file regardless; distinct files have distinct
codes; a mapping entry whose filtered subset is empty produces no file. -/
theorem claim_C4_partition (rows : List Row) (r : Row) (hr : r ∈ rows) :
    r ∈ kraje_rows rows ∧
    (∀ name code, (name, code) ∈ name_to_abb → r.nuts3_name = Json.str name →
      (∃ sub, (code, sub) ∈ region_files rows ∧ r ∈ sub) ∧
      (∀ c sub, (c, sub) ∈ region_files rows → r ∈ sub → c = code)) ∧
    ((region_files rows).map Prod.fst).Nodup ∧
    (∀ name code, (name, code) ∈ name_to_abb →
      rows.filter (fun q => Row.krajIs q name) = [] →
      ∀ sub, (code, sub) ∉ region_files rows) := by
  have hsort : r ∈ sort_by_kraj rows := List.mem_mergeSort.2 hr
  refine ⟨hsort, ?_, ?_, ?_⟩
  · intro name code hmap hkraj
    constructor
    · refine ⟨(sort_by_kraj rows).filter (fun q => Row.krajIs q name), ?_, ?_⟩
      · rw [region_files, mem_write_regions]
        exact ⟨name, hmap, rfl,
          List.ne_nil_of_mem (List.mem_filter.2 ⟨hsort, krajIs_of_eq r name hkraj⟩)⟩
      · exact List.mem_filter.2 ⟨hsort, krajIs_of_eq r name hkraj⟩
    · intro c sub hmem hrsub
      rw [region_files, mem_write_regions] at hmem
      obtain ⟨name', hn', hsub, _⟩ := hmem
      rw [hsub] at hrsub
      have : name' = name := eq_of_krajIs r name name' hkraj (List.mem_filter.1 hrsub).2
      rw [this] at hn'
      exact assoc_fst_functional name_to_abb name_to_abb_keys_nodup name c code hn' hmap
  · exact (write_regions_keys_sublist (sort_by_kraj rows)).nodup name_to_abb_values_nodup
  · intro name code hmap hempty sub hmem
    rw [region_files, mem_write_regions] at hmem
    obtain ⟨name', hn', hsub, hne⟩ := hmem
    have hname : name' = name :=
      assoc_snd_functional name_to_abb name_to_abb_values_nodup name' name code hn' hmap
    apply hne
    rw [hsub, hname]
    have hperm := (List.mergeSort_perm rows (fun a b => krajStr a ≤ krajStr b)).filter
      (fun q => Row.krajIs q name)
    rw [hempty] at hperm
    exact hperm.eq_nil

/-- Witness for C4: a single Bratislava-region row. -/
theorem claim_C4_witness :
    sampleRow ∈ [sampleRow] ∧
    (sampleRow ∈ kraje_rows [sampleRow] ∧
     (∀ name code, (name, code) ∈ name_to_abb →
        sampleRow.nuts3_name = Json.str name →
        (∃ sub, (code, sub) ∈ region_files [sampleRow] ∧ sampleRow ∈ sub) ∧
        (∀ c sub, (c, sub) ∈ region_files [sampleRow] → sampleRow ∈ sub →
          c = code)) ∧
     ((region_files [sampleRow]).map Prod.fst).Nodup ∧
     (∀ name code, (name, code) ∈ name_to_abb →
        [sampleRow].filter (fun q => Row.krajIs q name) = [] →
        ∀ sub, (code, sub) ∉ region_files [sampleRow])) :=
  ⟨List.Mem.head _, claim_C4_partition [sampleRow] sampleRow (List.Mem.head _)⟩

end FetchNuts
